import Mathlib

/-!
Shallow embedding of `async_ip_rotator/__init__.py` (class `AsyncApiGateway`).

Python strings are modelled as Lean `String`s, operated on through their
code-point lists (`String.data`), which matches Python's view of `str` as a
sequence of code points.  Python dicts of headers are modelled as ordered
association lists (`Headers`), matching insertion-order semantics.  The AWS
client calls are external collaborators: their observable behaviour is passed
in as oracles (a listing result, a fresh rest-api id, a per-id deletion
outcome), and network requests issued by `send` are modelled by the
`ProxyRequest` value the code hands to the transport client.
-/

namespace AsyncIpRotator

/-- Embeds `MAX_IPV4 = ipaddress.IPv4Address._ALL_ONES`, i.e. `2^32 - 1`. -/
def MAX_IPV4 : Nat := 2 ^ 32 - 1

/-- Embeds the trailing-slash stripping in `AsyncApiGateway.__init__`:
`self.site = site[:-1] if site.endswith("/") else site`.
`site.endswith("/")` holds exactly when the last code point is `'/'`, and
`site[:-1]` drops the last code point. -/
def stripSite (site : String) : String :=
  if site.data.getLast? = some '/' then ⟨site.data.dropLast⟩ else site

/-- Embeds `self.api_name = self.site + " - IP Rotate API"` from `__init__`
(applied to the already slash-stripped site). -/
def apiNameOf (site : String) : String :=
  site ++ " - IP Rotate API"

/-- Embeds `new_api_name = self.api_name (+ " (Manual Deletion Required)")?`
from `_init_gateway_sync`. -/
def newApiName (apiName : String) (requireManualDeletion : Bool) : String :=
  if requireManualDeletion then apiName ++ " (Manual Deletion Required)" else apiName

/-- One provider-side REST API as returned by `get_rest_apis` listing: an id
and an optional `name` field (the code guards with `"name" in api`). -/
structure Api where
  id : String
  name : Option String
deriving DecidableEq, Repr

/-- Embeds `f"{id}.execute-api.{region}.amazonaws.com"`. -/
def endpointOf (id region : String) : String :=
  id ++ ".execute-api." ++ region ++ ".amazonaws.com"

/-- Result of listing the region's rest apis (`get_gateways_sync`), as seen by
the callers: either the list of apis or a `botocore` client error code. -/
inductive ListErr where
  | unrecognizedClient
  | other (code : String)
deriving DecidableEq, Repr

/-- Outcome of one `delete_rest_api` call, keyed by the error code the code
inspects. -/
inductive DelOutcome where
  | ok
  | tooManyRequests
  | err (code : String)
deriving DecidableEq, Repr

/-- Result of `_init_gateway_sync`: `{"success": False}` (region skipped),
`{"success": True, "new": False}` (existing api reused), or
`{"success": True, "new": True}` (api created). -/
inductive InitResult where
  | failure
  | found (endpoint : String)
  | created (endpoint : String)
deriving DecidableEq, Repr

/-- Embeds the discovery test in `_init_gateway_sync`:
`"name" in api and api["name"].startswith(self.api_name)`, with
`startswith` as code-point-list prefix. -/
def discoverPred (apiName : String) (api : Api) : Bool :=
  match api.name with
  | some n => apiName.data.isPrefixOf n.data
  | none => false

/-- Embeds `_init_gateway_sync region force require_manual_deletion`.  The
`listing` oracle stands for `get_gateways_sync(awsclient)` (raising a
`ClientError` with the given code when it is `.error`), and `newApiId` stands
for the id the provider returns from `create_rest_api`; the creation-side AWS
calls (`create_resource`, `put_method`, `put_integration`,
`create_deployment`) only have external effects and contribute nothing to the
returned value beyond the new id. -/
def initGatewaySync (apiName region : String) (force requireManualDeletion : Bool)
    (listing : Except ListErr (List Api)) (newApiId : String) :
    Except ListErr InitResult :=
  if force then
    Except.ok (InitResult.created (endpointOf newApiId region))
  else
    match listing with
    | Except.error ListErr.unrecognizedClient => Except.ok InitResult.failure
    | Except.error (ListErr.other c) => Except.error (ListErr.other c)
    | Except.ok apis =>
      match apis.find? (discoverPred apiName) with
      | some api => Except.ok (InitResult.found (endpointOf api.id region))
      | none => Except.ok (InitResult.created (endpointOf newApiId region))

/-- Embeds `ep.split(".")[0]` applied to each allow-listed endpoint in
`_delete_gateway_sync`: the code points before the first `'.'`. -/
def takeBeforeDot (ep : String) : String :=
  ⟨ep.data.takeWhile (fun c => c ≠ '.')⟩

/-- Embeds the allow-list guard in the deletion loop:
`endpoints is not None and api["id"] not in endpoint_ids` means skip; this
predicate is true when the api passes (is allowed to be deleted). -/
def epFilterPass (epIds : Option (List String)) (api : Api) : Bool :=
  match epIds with
  | none => true
  | some ids => ids.contains api.id

/-- Embeds the `for api in apis` deletion loop of `_delete_gateway_sync`:
exact name equality, allow-list guard, then `delete_rest_api`; on success the
id is appended to `deleted_ids`, on `TooManyRequestsException` the loop
sleeps and continues (the api is never retried), on any other client error the
failure is printed and the api skipped. -/
def deleteLoop (apiName : String) (epIds : Option (List String))
    (del : String → DelOutcome) : List Api → List String
  | [] => []
  | api :: rest =>
    if api.name = some apiName then
      if epFilterPass epIds api then
        match del api.id with
        | DelOutcome.ok => api.id :: deleteLoop apiName epIds del rest
        | DelOutcome.tooManyRequests => deleteLoop apiName epIds del rest
        | DelOutcome.err _ => deleteLoop apiName epIds del rest
      else deleteLoop apiName epIds del rest
    else deleteLoop apiName epIds del rest

/-- Embeds `_delete_gateway_sync region endpoints`: computes the allow-list of
id prefixes, lists the region's apis (`UnrecognizedClientException` yields
`[]`, any other client error re-raises), then runs the deletion loop. -/
def deleteGatewaySync (apiName : String) (endpoints? : Option (List String))
    (listing : Except ListErr (List Api)) (del : String → DelOutcome) :
    Except ListErr (List String) :=
  let epIds := endpoints?.map (List.map takeBeforeDot)
  match listing with
  | Except.error ListErr.unrecognizedClient => Except.ok []
  | Except.error (ListErr.other c) => Except.error (ListErr.other c)
  | Except.ok apis => Except.ok (deleteLoop apiName epIds del apis)

/-- One per-region result of the `asyncio.gather(..., return_exceptions=True)`
fan-out in `start`: a success dict (`{"success": True, "endpoint": e,
"new": b}`), a skip dict (`{"success": False}`), or a raised exception
captured by `gather`. -/
inductive RegionOutcome where
  | success (endpoint : String) (isNew : Bool)
  | skip
  | exc (msg : String)
deriving DecidableEq, Repr

/-- Embeds the fan-in loop of `start`: the endpoints of the successful results
in order (the `self.endpoints.append(result["endpoint"])` collection). -/
def collectEndpoints (results : List RegionOutcome) : List String :=
  results.filterMap fun r =>
    match r with
    | RegionOutcome.success e _ => some e
    | _ => none

/-- Embeds the `new_endpoints` counter of `start`. -/
def countNew (results : List RegionOutcome) : Nat :=
  results.countP fun r =>
    match r with
    | RegionOutcome.success _ true => true
    | _ => false

/-- Embeds the task list of `start`/`shutdown`: one task per configured
region, in order; `outcome i` is what `asyncio.gather` hands back for the
`i`-th task. -/
def startResults (regions : List String) (outcome : Nat → RegionOutcome) :
    List RegionOutcome :=
  (List.range regions.length).map outcome

/-- Embeds `AsyncApiGateway.start`: the guard `if endpoints:` is Python
truthiness, so only a *non-empty* supplied list bypasses provisioning;
otherwise one `init_gateway` task is dispatched per region and the successful
endpoints are collected. -/
def start (regions : List String) (endpoints? : Option (List String))
    (outcome : Nat → RegionOutcome) : List String :=
  match endpoints? with
  | some (e :: es) => e :: es
  | _ => collectEndpoints (startResults regions outcome)

/-- One per-region result of the `shutdown` fan-out: the deleted-id list
returned by `delete_gateway`, or a raised exception captured by `gather`. -/
inductive ShutdownOutcome where
  | ids (deleted : List String)
  | exc (msg : String)
deriving DecidableEq, Repr

/-- Embeds the fan-in loop of `shutdown`: list results are concatenated into
`deleted_ids`, exceptions are printed and contribute nothing. -/
def shutdown (regions : List String) (outcome : Nat → ShutdownOutcome) :
    List String :=
  ((List.range regions.length).map outcome).foldl
    (fun acc r =>
      match r with
      | ShutdownOutcome.ids l => acc ++ l
      | ShutdownOutcome.exc _ => acc) []

/-! ### Request dispatcher (`AsyncApiGateway.send`) -/

/-- Headers dict, as an insertion-ordered association list. -/
abbrev Headers : Type := List (String × String)

/-- Embeds `headers.get(k)` / `k in headers`. -/
def hget (h : Headers) (k : String) : Option String :=
  (List.find? (fun p => p.1 = k) h).map Prod.snd

/-- Embeds `headers[k] = v`: replaces the value in place when the key is
present (dicts keep the original insertion position), otherwise appends. -/
def hset (h : Headers) (k v : String) : Headers :=
  if List.any h (fun p => p.1 = k) then
    List.map (fun p => if p.1 = k then (k, v) else p) h
  else h ++ [(k, v)]

/-- Embeds `headers.pop(k, None)`: removes the key if present. -/
def hpop (h : Headers) (k : String) : Headers :=
  List.filter (fun p => p.1 ≠ k) h

/-- Embeds `ipaddress.IPv4Address._string_from_ip_int`: the dotted-quad
rendering of a 32-bit integer, most significant octet first. -/
def stringFromIpInt (n : Nat) : String :=
  toString (n / 2 ^ 24 % 256) ++ "." ++ toString (n / 2 ^ 16 % 256) ++ "." ++
    toString (n / 2 ^ 8 % 256) ++ "." ++ toString (n % 256)

/-- Embeds the header rewriting of `send` (after the URL is rebuilt):
`headers["Host"] = endpoint`; read `X-Forwarded-For`, defaulting to the
random ip string; `headers.pop("X-Forwarded-For", None)`;
`headers["X-My-X-Forwarded-For"] = value`. -/
def transformHeaders (endpoint ipStr : String) (headers : Headers) : Headers :=
  let h1 := hset headers "Host" endpoint
  let v :=
    match hget h1 "X-Forwarded-For" with
    | some w => w
    | none => ipStr
  let h2 := hpop h1 "X-Forwarded-For"
  hset h2 "X-My-X-Forwarded-For" v

/-- Splits a code-point list at the first occurrence of `sep`, or `none` when
`sep` does not occur — the semantics of Python `s.split(sep, 1)` returning two
parts vs. one. -/
def splitOnceList (sep : List Char) : List Char → Option (List Char × List Char)
  | [] => if sep.isPrefixOf ([] : List Char) then some ([], []) else none
  | c :: cs =>
    if sep.isPrefixOf (c :: cs) then some ([], (c :: cs).drop sep.length)
    else
      match splitOnceList sep cs with
      | some (pre, post) => some (c :: pre, post)
      | none => none

/-- String wrapper for `splitOnceList`. -/
def pySplitOnce (s sep : String) : Option (String × String) :=
  (splitOnceList sep.data s.data).map fun p => (⟨p.1⟩, ⟨p.2⟩)

/-- The request `send` hands to `httpx.AsyncClient.request`: the method, the
rewritten URL and the rewritten headers. -/
structure ProxyRequest where
  method : String
  url : String
  headers : Headers
deriving DecidableEq

/-- The ways `send` fails before reaching the network: the explicit
`RuntimeError` on an empty endpoint pool, or the `ValueError` from unpacking
`url.split("://", 1)` when the URL has no scheme separator. -/
inductive SendError where
  | noEndpoints
  | malformedUrl
deriving DecidableEq, Repr

/-- Embeds `AsyncApiGateway.send`.  `pick` models the index `random.choice`
draws from the endpoint list, `randIp` the integer `randint(0, MAX_IPV4)`
draws (consulted only when the caller supplied no `X-Forwarded-For`).
Returning `.ok` means exactly one network request is issued, with the carried
method, URL and headers; returning `.error` means the exception is raised
before any network call. -/
def send (endpoints : List String) (pick randIp : Nat) (method url : String)
    (headers? : Option Headers) : Except SendError ProxyRequest :=
  let headers := headers?.getD []
  if endpoints = [] then Except.error SendError.noEndpoints
  else
    let endpoint := endpoints.getD (pick % endpoints.length) ""
    match pySplitOnce url "://" with
    | none => Except.error SendError.malformedUrl
    | some (_protocol, siteRest) =>
      let sitePath :=
        if siteRest.data.contains '/' then
          match pySplitOnce siteRest "/" with
          | some (_domain, p) => p
          | none => ""
        else ""
      let newUrl := "https://" ++ endpoint ++ "/ProxyStage/" ++ sitePath
      Except.ok
        ⟨method, newUrl, transformHeaders endpoint (stringFromIpInt randIp) headers⟩

/-! ### Helper lemmas -/

theorem find?_map_setter (t : Headers) (k v k' : String) (hne : k' ≠ k) :
    List.find? (fun p => p.1 = k')
        (t.map (fun p => if p.1 = k then (k, v) else p))
      = List.find? (fun p => p.1 = k') t := by
  induction t with
  | nil => rfl
  | cons p t ih =>
    by_cases hp : p.1 = k
    · have h1 : ¬((k : String) = k') := Ne.symm hne
      have h2 : ¬(p.1 = k') := by rw [hp]; exact Ne.symm hne
      simp only [List.map_cons, hp, if_pos rfl]
      rw [List.find?_cons_of_neg _ (by simpa using h1),
        List.find?_cons_of_neg _ (by simpa using h2), ih]
    · simp only [List.map_cons, if_neg hp]
      by_cases hp' : p.1 = k'
      · rw [List.find?_cons_of_pos _ (by simpa using hp'),
          List.find?_cons_of_pos _ (by simpa using hp')]
      · rw [List.find?_cons_of_neg _ (by simpa using hp'),
          List.find?_cons_of_neg _ (by simpa using hp'), ih]

theorem hget_hset_self (h : Headers) (k v : String) :
    hget (hset h k v) k = some v := by
  unfold hset
  split
  · rename_i hany
    induction h with
    | nil => simp at hany
    | cons p t ih =>
      by_cases hp : p.1 = k
      · simp [hget, List.find?, hp]
      · simp only [List.any_cons, Bool.or_eq_true, decide_eq_true_eq] at hany
        rcases hany with h1 | h2
        · exact absurd h1 hp
        · simpa [hget, List.find?, hp] using ih h2
  · rename_i hany
    induction h with
    | nil => simp [hget, List.find?]
    | cons p t ih =>
      simp only [List.any_cons, Bool.or_eq_true, decide_eq_true_eq, not_or] at hany
      simpa [hget, List.find?, hany.1] using ih (by simpa using hany.2)

theorem hget_hset_ne (h : Headers) (k v k' : String) (hne : k' ≠ k) :
    hget (hset h k v) k' = hget h k' := by
  unfold hget hset
  split
  · rw [find?_map_setter h k v k' hne]
  · rw [List.find?_append]
    have h0 : List.find? (fun p => p.1 = k') [(k, v)] = none := by
      simp [List.find?, Ne.symm hne]
    rw [h0]
    simp

theorem hget_hpop_self (h : Headers) (k : String) :
    hget (hpop h k) k = none := by
  unfold hget hpop
  have h0 : List.find? (fun p => p.1 = k) (List.filter (fun p => p.1 ≠ k) h)
      = none := by
    rw [List.find?_eq_none]
    intro x hx
    rw [List.mem_filter] at hx
    simpa using hx.2
  rw [h0]
  rfl

theorem hget_hpop_ne (h : Headers) (k k' : String) (hne : k' ≠ k) :
    hget (hpop h k) k' = hget h k' := by
  unfold hget hpop
  congr 1
  induction h with
  | nil => rfl
  | cons p t ih =>
    by_cases hp : p.1 = k
    · have h2 : ¬(p.1 = k') := by rw [hp]; exact Ne.symm hne
      rw [List.filter_cons_of_neg (by simpa using hp),
        List.find?_cons_of_neg _ (by simpa using h2), ih]
    · rw [List.filter_cons_of_pos (by simpa using hp)]
      by_cases hp' : p.1 = k'
      · rw [List.find?_cons_of_pos _ (by simpa using hp'),
          List.find?_cons_of_pos _ (by simpa using hp')]
      · rw [List.find?_cons_of_neg _ (by simpa using hp'),
          List.find?_cons_of_neg _ (by simpa using hp'), ih]

theorem hget_transformHeaders_host (endpoint ipStr : String) (h : Headers) :
    hget (transformHeaders endpoint ipStr h) "Host" = some endpoint := by
  unfold transformHeaders
  rw [hget_hset_ne _ _ _ _ (by decide), hget_hpop_ne _ _ _ (by decide),
    hget_hset_self]

theorem hget_transformHeaders_xff (endpoint ipStr : String) (h : Headers) :
    hget (transformHeaders endpoint ipStr h) "X-Forwarded-For" = none := by
  unfold transformHeaders
  rw [hget_hset_ne _ _ _ _ (by decide), hget_hpop_self]

theorem hget_transformHeaders_xmy (endpoint ipStr : String) (h : Headers) :
    hget (transformHeaders endpoint ipStr h) "X-My-X-Forwarded-For"
      = some (match hget h "X-Forwarded-For" with
              | some w => w
              | none => ipStr) := by
  unfold transformHeaders
  rw [hget_hset_self, hget_hset_ne _ _ _ _ (by decide)]

theorem hget_transformHeaders_frame (endpoint ipStr : String) (h : Headers)
    (k : String) (h1 : k ≠ "Host") (h2 : k ≠ "X-Forwarded-For")
    (h3 : k ≠ "X-My-X-Forwarded-For") :
    hget (transformHeaders endpoint ipStr h) k = hget h k := by
  unfold transformHeaders
  rw [hget_hset_ne _ _ _ _ h3, hget_hpop_ne _ _ _ h2, hget_hset_ne _ _ _ _ h1]


theorem splitOnceList_append (s0 : Char) (srest a b : List Char)
    (ha : s0 ∉ a) :
    splitOnceList (s0 :: srest) (a ++ (s0 :: srest) ++ b) = some (a, b) := by
  induction a with
  | nil =>
    have hpre : (s0 :: srest).isPrefixOf ((s0 :: srest) ++ b) = true :=
      List.isPrefixOf_iff_prefix.mpr (List.prefix_append _ _)
    rw [List.cons_append] at hpre
    rw [List.nil_append, List.cons_append, splitOnceList]
    rw [if_pos hpre, ← List.cons_append, List.drop_left]
  | cons c a ih =>
    have hc : c ≠ s0 := fun hcs => ha (hcs ▸ List.mem_cons_self c a)
    have hs0 : s0 ∉ a := fun hs => ha (List.mem_cons_of_mem c hs)
    simp only [List.cons_append]
    unfold splitOnceList
    rw [if_neg]
    · rw [ih hs0]
    · intro hpre
      rw [List.isPrefixOf_iff_prefix] at hpre
      rcases hpre with ⟨t, ht⟩
      simp only [List.cons_append] at ht
      exact hc (by injection ht with h1 _; exact h1.symm)

theorem mem_deleteLoop (apiName : String) (epIds : Option (List String))
    (del : String → DelOutcome) (apis : List Api) (x : String) :
    x ∈ deleteLoop apiName epIds del apis ↔
      ∃ a, a ∈ apis ∧ a.name = some apiName ∧ epFilterPass epIds a = true ∧
        del a.id = DelOutcome.ok ∧ a.id = x := by
  induction apis with
  | nil => simp [deleteLoop]
  | cons api rest ih =>
    unfold deleteLoop
    by_cases hn : api.name = some apiName
    · rw [if_pos hn]
      by_cases hf : epFilterPass epIds api = true
      · rw [if_pos hf]
        cases hdel : del api.id with
        | ok =>
          constructor
          · intro hx
            rcases List.mem_cons.mp hx with rfl | hx
            · exact ⟨api, List.mem_cons_self _ _, hn, hf, hdel, rfl⟩
            · obtain ⟨a, hmem, h1, h2, h3, rfl⟩ := ih.mp hx
              exact ⟨a, List.mem_cons_of_mem _ hmem, h1, h2, h3, rfl⟩
          · rintro ⟨a, hmem, h1, h2, h3, rfl⟩
            rcases List.mem_cons.mp hmem with rfl | hmem
            · exact List.mem_cons_self _ _
            · exact List.mem_cons_of_mem _ (ih.mpr ⟨a, hmem, h1, h2, h3, rfl⟩)
        | tooManyRequests =>
          rw [ih]
          constructor
          · rintro ⟨a, hmem, h1, h2, h3, rfl⟩
            exact ⟨a, List.mem_cons_of_mem _ hmem, h1, h2, h3, rfl⟩
          · rintro ⟨a, hmem, h1, h2, h3, rfl⟩
            rcases List.mem_cons.mp hmem with rfl | hmem
            · rw [hdel] at h3; cases h3
            · exact ⟨a, hmem, h1, h2, h3, rfl⟩
        | err m =>
          rw [ih]
          constructor
          · rintro ⟨a, hmem, h1, h2, h3, rfl⟩
            exact ⟨a, List.mem_cons_of_mem _ hmem, h1, h2, h3, rfl⟩
          · rintro ⟨a, hmem, h1, h2, h3, rfl⟩
            rcases List.mem_cons.mp hmem with rfl | hmem
            · rw [hdel] at h3; cases h3
            · exact ⟨a, hmem, h1, h2, h3, rfl⟩
      · rw [if_neg hf, ih]
        constructor
        · rintro ⟨a, hmem, h1, h2, h3, rfl⟩
          exact ⟨a, List.mem_cons_of_mem _ hmem, h1, h2, h3, rfl⟩
        · rintro ⟨a, hmem, h1, h2, h3, rfl⟩
          rcases List.mem_cons.mp hmem with rfl | hmem
          · exact absurd h2 hf
          · exact ⟨a, hmem, h1, h2, h3, rfl⟩
    · rw [if_neg hn, ih]
      constructor
      · rintro ⟨a, hmem, h1, h2, h3, rfl⟩
        exact ⟨a, List.mem_cons_of_mem _ hmem, h1, h2, h3, rfl⟩
      · rintro ⟨a, hmem, h1, h2, h3, rfl⟩
        rcases List.mem_cons.mp hmem with rfl | hmem
        · exact absurd h1 hn
        · exact ⟨a, hmem, h1, h2, h3, rfl⟩

theorem mem_collectEndpoints (results : List RegionOutcome) (e : String) :
    e ∈ collectEndpoints results ↔
      ∃ b, RegionOutcome.success e b ∈ results := by
  unfold collectEndpoints
  rw [List.mem_filterMap]
  constructor
  · rintro ⟨r, hmem, hr⟩
    cases r with
    | success e' b =>
      simp only [Option.some.injEq] at hr
      exact ⟨b, hr ▸ hmem⟩
    | skip => cases hr
    | exc m => cases hr
  · rintro ⟨b, hmem⟩
    exact ⟨RegionOutcome.success e b, hmem, rfl⟩


theorem splitOnceList_of_eq (s0 : Char) (srest a b l : List Char)
    (ha : s0 ∉ a) (hl : l = a ++ (s0 :: srest) ++ b) :
    splitOnceList (s0 :: srest) l = some (a, b) :=
  hl ▸ splitOnceList_append s0 srest a b ha

theorem pySplitOnce_scheme (scheme host pq : String) (hs : ':' ∉ scheme.data) :
    pySplitOnce (scheme ++ "://" ++ host ++ "/" ++ pq) "://"
      = some (scheme, host ++ "/" ++ pq) := by
  unfold pySplitOnce
  rw [show ("://" : String).data = ':' :: '/' :: '/' :: [] from rfl]
  rw [splitOnceList_of_eq ':' ('/' :: '/' :: []) scheme.data
    ((host ++ "/" ++ pq).data) _ hs (by simp [String.data_append])]
  rfl

theorem pySplitOnce_path (host pq : String) (hh : '/' ∉ host.data) :
    pySplitOnce (host ++ "/" ++ pq) "/" = some (host, pq) := by
  unfold pySplitOnce
  rw [show ("/" : String).data = '/' :: [] from rfl]
  rw [splitOnceList_of_eq '/' [] host.data pq.data _ hh
    (by simp [String.data_append])]
  rfl

theorem send_wellformed (endpoints : List String) (pick randIp : Nat)
    (method scheme host pq : String) (headers? : Option Headers)
    (hne : endpoints ≠ []) (hs : ':' ∉ scheme.data) (hh : '/' ∉ host.data) :
    send endpoints pick randIp method (scheme ++ "://" ++ host ++ "/" ++ pq)
        headers? =
      Except.ok
        ⟨method,
          "https://" ++ endpoints.getD (pick % endpoints.length) ""
            ++ "/ProxyStage/" ++ pq,
          transformHeaders (endpoints.getD (pick % endpoints.length) "")
            (stringFromIpInt randIp) (headers?.getD [])⟩ := by
  have hcont : ((host ++ "/" ++ pq).data.contains '/') = true :=
    List.elem_iff.mpr (by simp [String.data_append])
  simp only [send]
  rw [if_neg hne, pySplitOnce_scheme scheme host pq hs]
  simp only [hcont, if_true, pySplitOnce_path host pq hh]

theorem send_empty (pick randIp : Nat) (method url : String)
    (headers? : Option Headers) :
    send [] pick randIp method url headers? = Except.error SendError.noEndpoints := by
  simp [send]

theorem send_ok_shape (endpoints : List String) (pick randIp : Nat)
    (method url : String) (headers? : Option Headers) (r : ProxyRequest)
    (h : send endpoints pick randIp method url headers? = Except.ok r) :
    r.method = method ∧
      r.headers = transformHeaders (endpoints.getD (pick % endpoints.length) "")
        (stringFromIpInt randIp) (headers?.getD []) := by
  unfold send at h
  split at h
  · cases h
  · split at h
    · cases h
    · cases h
      exact ⟨rfl, rfl⟩

theorem send_nonempty_ne (endpoints : List String) (pick randIp : Nat)
    (method url : String) (headers? : Option Headers) (hne : endpoints ≠ []) :
    send endpoints pick randIp method url headers?
      ≠ Except.error SendError.noEndpoints := by
  unfold send
  rw [if_neg hne]
  split
  · intro h
    cases h
  · intro h
    cases h

/-! ### Claim theorems -/

/-- Claim C8: when listing the region's resources fails with
`UnrecognizedClientException` (region not enabled for the account),
provisioning returns the skip result `{"success": False}` and deprovisioning
returns an empty deleted-id list, neither raising; any other listing error
code propagates as that region's failure in both operations. -/
theorem claim_c8_region_not_enabled (apiName region newApiId : String)
    (rmd : Bool) (endpoints? : Option (List String)) (del : String → DelOutcome)
    (c : String) :
    initGatewaySync apiName region false rmd
        (Except.error ListErr.unrecognizedClient) newApiId
      = Except.ok InitResult.failure ∧
    deleteGatewaySync apiName endpoints?
        (Except.error ListErr.unrecognizedClient) del
      = Except.ok [] ∧
    initGatewaySync apiName region false rmd
        (Except.error (ListErr.other c)) newApiId
      = Except.error (ListErr.other c) ∧
    deleteGatewaySync apiName endpoints?
        (Except.error (ListErr.other c)) del
      = Except.error (ListErr.other c) :=
  ⟨rfl, rfl, rfl, rfl⟩

/-- Claim C9 (counterexample): for the site string `"https://site.com//"`,
which ends in a slash, stripping the already-stored value again does not
yield the same value (`stripSite` removes exactly one slash per application,
so a second application removes a second slash), refuting the idempotence
part of the claim. -/
theorem claim_c9_counterexample :
    stripSite (stripSite "https://site.com//")
      ≠ stripSite "https://site.com//" := by
  decide

/-- Claim C9 (amended): for every site string ending in `'/'` the stored
logical site equals the input with exactly one trailing slash removed, and a
site with no trailing slash is stored unchanged; stripping the stored value
again yields the same value provided the input does not end in two
consecutive slashes. -/
theorem claim_c9_slash_stripping (t s : String)
    (h2 : ¬(s.data.getLast? = some '/' ∧ s.data.dropLast.getLast? = some '/')) :
    stripSite (t ++ "/") = t ∧
    (s.data.getLast? ≠ some '/' → stripSite s = s) ∧
    stripSite (stripSite s) = stripSite s := by
  have hslash : ("/" : String).data = ['/'] := rfl
  refine ⟨?_, ?_, ?_⟩
  · unfold stripSite
    rw [String.data_append, hslash,
      if_pos (List.getLast?_concat t.data), List.dropLast_concat]
  · intro h1
    unfold stripSite
    rw [if_neg h1]
  · by_cases h1 : s.data.getLast? = some '/'
    · have hnot : s.data.dropLast.getLast? ≠ some '/' := fun hc => h2 ⟨h1, hc⟩
      have hst : stripSite s = ⟨s.data.dropLast⟩ := by
        unfold stripSite
        rw [if_pos h1]
      rw [hst]
      unfold stripSite
      rw [if_neg hnot]
    · have hst : stripSite s = s := by
        unfold stripSite
        rw [if_neg h1]
      rw [hst, hst]

/-- Witness for C9 (amended) at the site `"https://site.com/"`. -/
theorem claim_c9_slash_stripping_witness :
    stripSite ("https://site.com" ++ "/") = "https://site.com" ∧
    (("https://site.com/" : String).data.getLast? ≠ some '/' →
      stripSite "https://site.com/" = "https://site.com/") ∧
    stripSite (stripSite "https://site.com/") = stripSite "https://site.com/" :=
  claim_c9_slash_stripping "https://site.com" "https://site.com/" (by decide)

/-- Claim C6 (counterexample): `start` called with the explicit endpoint list
`[]` does not return that list unchanged: the guard `if endpoints:` treats an
empty list as falsy, so provisioning runs and here contributes the endpoint
`"ep.example"`. -/
theorem claim_c6_counterexample :
    start ["us-east-1"] (some [])
        (fun _ => RegionOutcome.success "ep.example" true)
      ≠ [] := by
  decide

/-- Claim C6 (amended): for every NON-EMPTY list of explicit endpoints
supplied to `start`, provisioning is bypassed and the list is adopted
verbatim; a supplied empty list is treated exactly as if no list was
supplied (provisioning proceeds). -/
theorem claim_c6_explicit_endpoints (regions : List String)
    (outcome : Nat → RegionOutcome) (eps : List String) (hne : eps ≠ []) :
    start regions (some eps) outcome = eps ∧
    start regions (some []) outcome = start regions none outcome := by
  refine ⟨?_, rfl⟩
  cases eps with
  | nil => exact absurd rfl hne
  | cons e es => rfl

/-- Witness for C6 (amended) at a two-element explicit list. -/
theorem claim_c6_explicit_endpoints_witness :
    start ["us-east-1"] (some ["a.example", "b.example"])
        (fun _ => RegionOutcome.skip)
      = ["a.example", "b.example"] ∧
    start ["us-east-1"] (some []) (fun _ => RegionOutcome.skip)
      = start ["us-east-1"] none (fun _ => RegionOutcome.skip) :=
  claim_c6_explicit_endpoints ["us-east-1"] (fun _ => RegionOutcome.skip)
    ["a.example", "b.example"] (by decide)

/-- Claim C7: with N configured regions, `start` dispatches exactly N
provisioning attempts (one per region), the returned endpoint list has
length at most N, and every region whose attempt succeeds contributes its
endpoint to the result, regardless of sibling regions skipping or raising
(`start` is total on every outcome assignment: captured exceptions never
propagate). -/
theorem claim_c7_fan_out (regions : List String)
    (outcome : Nat → RegionOutcome) (i : Nat) (e : String) (b : Bool)
    (hi : i < regions.length) (ho : outcome i = RegionOutcome.success e b) :
    (startResults regions outcome).length = regions.length ∧
    (start regions none outcome).length ≤ regions.length ∧
    e ∈ start regions none outcome := by
  refine ⟨by simp [startResults], ?_, ?_⟩
  · show (collectEndpoints (startResults regions outcome)).length ≤ _
    calc (collectEndpoints (startResults regions outcome)).length
        ≤ (startResults regions outcome).length :=
          List.length_filterMap_le _ _
      _ = regions.length := by simp [startResults]
  · show e ∈ collectEndpoints (startResults regions outcome)
    refine (mem_collectEndpoints _ _).mpr ⟨b, ?_⟩
    exact List.mem_map.mpr ⟨i, List.mem_range.mpr hi, ho⟩

/-- Witness for C7: two regions, the first raising an exception and the
second succeeding; the successful endpoint still appears. -/
theorem claim_c7_fan_out_witness :
    (startResults ["us-east-1", "us-east-2"]
        (fun i => if i = 0 then RegionOutcome.exc "boom"
                  else RegionOutcome.success "ep.example" false)).length = 2 ∧
    (start ["us-east-1", "us-east-2"] none
        (fun i => if i = 0 then RegionOutcome.exc "boom"
                  else RegionOutcome.success "ep.example" false)).length ≤ 2 ∧
    "ep.example" ∈ start ["us-east-1", "us-east-2"] none
        (fun i => if i = 0 then RegionOutcome.exc "boom"
                  else RegionOutcome.success "ep.example" false) :=
  claim_c7_fan_out ["us-east-1", "us-east-2"]
    (fun i => if i = 0 then RegionOutcome.exc "boom"
              else RegionOutcome.success "ep.example" false)
    1 "ep.example" false (by decide) (by decide)


/-- Claim C1: recognition asymmetry.  A resource whose name is the logical
resource name followed by a non-empty suffix is accepted by provisioning
discovery (prefix match), so when discovery finds it first the provisioner
reuses it (`found`, i.e. `isNew=false`); the deprovisioner filters on exact
name equality, so such a resource is never deleted (its id never enters the
deleted-id list, given that no exact-named resource shares its id). -/
theorem claim_c1_recognition_asymmetry (apiName suffix region newApiId : String)
    (rmd : Bool) (apis : List Api) (a : Api) (del : String → DelOutcome)
    (hname : a.name = some (apiName ++ suffix)) (hsuf : suffix ≠ "")
    (hfind : apis.find? (discoverPred apiName) = some a)
    (hid : ∀ b ∈ apis, b.name = some apiName → b.id ≠ a.id) :
    a.name ≠ some apiName ∧
    initGatewaySync apiName region false rmd (Except.ok apis) newApiId
      = Except.ok (InitResult.found (endpointOf a.id region)) ∧
    ∀ deleted,
      deleteGatewaySync apiName none (Except.ok apis) del = Except.ok deleted →
        a.id ∉ deleted := by
  refine ⟨?_, ?_, ?_⟩
  · rw [hname]
    intro hc
    have hd : apiName.data ++ suffix.data = apiName.data := by
      have := congrArg String.data (Option.some.inj hc)
      rwa [String.data_append] at this
    exact hsuf (String.ext (List.append_right_eq_self.mp hd))
  · unfold initGatewaySync
    rw [if_neg (by simp)]
    simp only [hfind]
  · intro deleted hdel
    have hloop : deleted = deleteLoop apiName none del apis := by
      unfold deleteGatewaySync at hdel
      exact (Except.ok.inj hdel).symm
    rw [hloop]
    intro hmem
    obtain ⟨b, hbmem, hbname, -, -, hbid⟩ :=
      (mem_deleteLoop apiName none del apis a.id).mp hmem
    exact hid b hbmem hbname hbid

/-- Witness for C1: a single resource carrying the manual-deletion suffix is
discovered and reused, and survives deprovisioning. -/
theorem claim_c1_recognition_asymmetry_witness :
    Api.name ⟨"abc123", some "S - IP Rotate API (Manual Deletion Required)"⟩
      ≠ some "S - IP Rotate API" ∧
    initGatewaySync "S - IP Rotate API" "us-east-1" false false
        (Except.ok [⟨"abc123", some "S - IP Rotate API (Manual Deletion Required)"⟩])
        "zzz"
      = Except.ok (InitResult.found (endpointOf "abc123" "us-east-1")) ∧
    ∀ deleted,
      deleteGatewaySync "S - IP Rotate API" none
          (Except.ok
            [⟨"abc123", some "S - IP Rotate API (Manual Deletion Required)"⟩])
          (fun _ => DelOutcome.ok)
        = Except.ok deleted →
      "abc123" ∉ deleted :=
  claim_c1_recognition_asymmetry "S - IP Rotate API"
    " (Manual Deletion Required)" "us-east-1" "zzz" false
    [⟨"abc123", some "S - IP Rotate API (Manual Deletion Required)"⟩]
    ⟨"abc123", some "S - IP Rotate API (Manual Deletion Required)"⟩
    (fun _ => DelOutcome.ok) (by decide) (by decide) (by decide) (by decide)

/-- Claim C2: in one region's deletion pass, a resource A whose deletion hits
`TooManyRequestsException` is skipped (never retried) while a resource B whose
deletion succeeds is collected: the pass completes with a deleted-id list
containing B's id and not A's id; a resource C whose deletion fails with any
other error code is likewise skipped without aborting the pass. -/
theorem claim_c2_rate_limit_skip (apiName : String) (apis : List Api)
    (A B : Api) (del : String → DelOutcome)
    (hA : A ∈ apis) (hAname : A.name = some apiName)
    (hAdel : del A.id = DelOutcome.tooManyRequests)
    (hB : B ∈ apis) (hBname : B.name = some apiName)
    (hBdel : del B.id = DelOutcome.ok) :
    ∀ deleted,
      deleteGatewaySync apiName none (Except.ok apis) del = Except.ok deleted →
        B.id ∈ deleted ∧ A.id ∉ deleted ∧
        ∀ C m, C ∈ apis → del C.id = DelOutcome.err m → C.id ∉ deleted := by
  intro deleted hdel
  have hloop : deleted = deleteLoop apiName none del apis := by
    unfold deleteGatewaySync at hdel
    exact (Except.ok.inj hdel).symm
  subst hloop
  refine ⟨?_, ?_, ?_⟩
  · exact (mem_deleteLoop apiName none del apis B.id).mpr
      ⟨B, hB, hBname, rfl, hBdel, rfl⟩
  · intro hmem
    obtain ⟨b, -, -, -, hbdel, hbid⟩ :=
      (mem_deleteLoop apiName none del apis A.id).mp hmem
    rw [hbid, hAdel] at hbdel
    cases hbdel
  · intro C m _ hCdel hmem
    obtain ⟨b, -, -, -, hbdel, hbid⟩ :=
      (mem_deleteLoop apiName none del apis C.id).mp hmem
    rw [hbid, hCdel] at hbdel
    cases hbdel

/-- Witness for C2: three exact-named resources where deleting `"a"` is
rate-limited, deleting `"b"` succeeds, and deleting `"c"` fails with another
error; only `"b"` is reported deleted. -/
theorem claim_c2_rate_limit_skip_witness :
    "b" ∈ deleteLoop "N" none
        (fun i => if i = "a" then DelOutcome.tooManyRequests
                  else if i = "c" then DelOutcome.err "AccessDenied"
                  else DelOutcome.ok)
        [⟨"a", some "N"⟩, ⟨"b", some "N"⟩, ⟨"c", some "N"⟩] ∧
    "a" ∉ deleteLoop "N" none
        (fun i => if i = "a" then DelOutcome.tooManyRequests
                  else if i = "c" then DelOutcome.err "AccessDenied"
                  else DelOutcome.ok)
        [⟨"a", some "N"⟩, ⟨"b", some "N"⟩, ⟨"c", some "N"⟩] ∧
    "c" ∉ deleteLoop "N" none
        (fun i => if i = "a" then DelOutcome.tooManyRequests
                  else if i = "c" then DelOutcome.err "AccessDenied"
                  else DelOutcome.ok)
        [⟨"a", some "N"⟩, ⟨"b", some "N"⟩, ⟨"c", some "N"⟩] := by
  have h := claim_c2_rate_limit_skip "N"
    [⟨"a", some "N"⟩, ⟨"b", some "N"⟩, ⟨"c", some "N"⟩]
    ⟨"a", some "N"⟩ ⟨"b", some "N"⟩
    (fun i => if i = "a" then DelOutcome.tooManyRequests
              else if i = "c" then DelOutcome.err "AccessDenied"
              else DelOutcome.ok)
    (by decide) (by decide) (by decide) (by decide) (by decide) (by decide)
    _ rfl
  exact ⟨h.1, h.2.1,
    h.2.2 ⟨"c", some "N"⟩ "AccessDenied" (by decide) (by decide)⟩


/-- Claim C3: dispatching with an empty live endpoint list fails with the
`RuntimeError` ("No API Gateway endpoints initialized") before any network
call (no `ProxyRequest` is produced), for every method, URL and headers; with
a non-empty endpoint list this error condition never fires. -/
theorem claim_c3_empty_pool (endpoints : List String) (pick randIp : Nat)
    (method url : String) (headers? : Option Headers) :
    (endpoints = [] →
      send endpoints pick randIp method url headers?
        = Except.error SendError.noEndpoints) ∧
    (endpoints ≠ [] →
      send endpoints pick randIp method url headers?
        ≠ Except.error SendError.noEndpoints) := by
  constructor
  · rintro rfl
    exact send_empty pick randIp method url headers?
  · exact send_nonempty_ne endpoints pick randIp method url headers?

/-- Witness for C3 at a concrete request. -/
theorem claim_c3_empty_pool_witness :
    send [] 0 0 "GET" "http://example.com/foo" none
      = Except.error SendError.noEndpoints ∧
    send ["ep.example"] 0 0 "GET" "http://example.com/foo" none
      ≠ Except.error SendError.noEndpoints :=
  ⟨(claim_c3_empty_pool [] 0 0 "GET" "http://example.com/foo" none).1 rfl,
   (claim_c3_empty_pool ["ep.example"] 0 0 "GET" "http://example.com/foo" none).2
     (by decide)⟩

/-- Claim C4: for every URL of the shape `<scheme>://<host>/<path-and-query>`
and chosen endpoint E, `send` issues the request at
`https://<E>/ProxyStage/<path-and-query>` (original scheme and host
discarded) with the `Host` header set to E. -/
theorem claim_c4_url_rewrite (endpoints : List String) (pick randIp : Nat)
    (method scheme host pq : String) (headers? : Option Headers)
    (hne : endpoints ≠ []) (hs : ':' ∉ scheme.data) (hh : '/' ∉ host.data) :
    send endpoints pick randIp method (scheme ++ "://" ++ host ++ "/" ++ pq)
        headers? =
      Except.ok
        ⟨method,
          "https://" ++ endpoints.getD (pick % endpoints.length) ""
            ++ "/ProxyStage/" ++ pq,
          transformHeaders (endpoints.getD (pick % endpoints.length) "")
            (stringFromIpInt randIp) (headers?.getD [])⟩ ∧
    hget
        (transformHeaders (endpoints.getD (pick % endpoints.length) "")
          (stringFromIpInt randIp) (headers?.getD [])) "Host"
      = some (endpoints.getD (pick % endpoints.length) "") :=
  ⟨send_wellformed endpoints pick randIp method scheme host pq headers? hne hs hh,
   hget_transformHeaders_host _ _ _⟩

/-- Witness for C4 at the spec's concrete example:
`http://example.com/foo?x=1` via `abc123.execute-api.us-east-1.amazonaws.com`
becomes `https://abc123.execute-api.us-east-1.amazonaws.com/ProxyStage/foo?x=1`. -/
theorem claim_c4_url_rewrite_witness :
    send ["abc123.execute-api.us-east-1.amazonaws.com"] 0 0 "GET"
        "http://example.com/foo?x=1" none =
      Except.ok
        ⟨"GET",
          "https://abc123.execute-api.us-east-1.amazonaws.com/ProxyStage/foo?x=1",
          transformHeaders "abc123.execute-api.us-east-1.amazonaws.com"
            (stringFromIpInt 0) []⟩ ∧
    hget
        (transformHeaders "abc123.execute-api.us-east-1.amazonaws.com"
          (stringFromIpInt 0) []) "Host"
      = some "abc123.execute-api.us-east-1.amazonaws.com" := by
  have h := claim_c4_url_rewrite ["abc123.execute-api.us-east-1.amazonaws.com"]
    0 0 "GET" "http" "example.com" "foo?x=1" none
    (by decide) (by decide) (by decide)
  exact h

/-- Claim C5: whenever `send` issues a request, the outgoing headers contain
no `X-Forwarded-For` key, and contain `X-My-X-Forwarded-For` whose value is
the caller-supplied `X-Forwarded-For` value when present and otherwise the
dotted-quad rendering of the drawn integer `randIp`, which `randint` draws
uniformly from the full 32-bit range `0..MAX_IPV4` with no filtering. -/
theorem claim_c5_forwarded_for (endpoints : List String) (pick randIp : Nat)
    (method url : String) (headers? : Option Headers) (r : ProxyRequest)
    (hip : randIp ≤ MAX_IPV4)
    (h : send endpoints pick randIp method url headers? = Except.ok r) :
    hget r.headers "X-Forwarded-For" = none ∧
    hget r.headers "X-My-X-Forwarded-For" =
      some
        (match hget (headers?.getD []) "X-Forwarded-For" with
         | some w => w
         | none => stringFromIpInt randIp) := by
  obtain ⟨-, hh⟩ := send_ok_shape endpoints pick randIp method url headers? r h
  rw [hh]
  exact ⟨hget_transformHeaders_xff _ _ _, hget_transformHeaders_xmy _ _ _⟩

/-- Witness for C5: a caller-supplied `X-Forwarded-For` is renamed and its
value preserved after a successful dispatch. -/
theorem claim_c5_forwarded_for_witness :
    hget
        (transformHeaders "ep.example" (stringFromIpInt 7)
          [("X-Forwarded-For", "9.9.9.9")]) "X-Forwarded-For"
      = none ∧
    hget
        (transformHeaders "ep.example" (stringFromIpInt 7)
          [("X-Forwarded-For", "9.9.9.9")]) "X-My-X-Forwarded-For"
      = some "9.9.9.9" := by
  have h := claim_c5_forwarded_for ["ep.example"] 0 7 "GET" "http://x/y"
    (some [("X-Forwarded-For", "9.9.9.9")])
    ⟨"GET", "https://ep.example/ProxyStage/y",
      transformHeaders "ep.example" (stringFromIpInt 7)
        [("X-Forwarded-For", "9.9.9.9")]⟩
    (by decide) rfl
  exact h

/-- Claim C10: the headers dict `send` mutates (modelled as the headers state
carried by the issued request, since the caller's dict is mutated in place)
ends with `Host` set to the chosen endpoint, `X-Forwarded-For` removed,
`X-My-X-Forwarded-For` present, and every other key mapped exactly as in the
caller-supplied dict; when no headers argument is given the baseline is a
fresh empty dict. -/
theorem claim_c10_header_mutation (endpoints : List String) (pick randIp : Nat)
    (method url : String) (headers? : Option Headers) (r : ProxyRequest)
    (h : send endpoints pick randIp method url headers? = Except.ok r) :
    hget r.headers "Host" = some (endpoints.getD (pick % endpoints.length) "") ∧
    hget r.headers "X-Forwarded-For" = none ∧
    (∃ v, hget r.headers "X-My-X-Forwarded-For" = some v) ∧
    (∀ k, k ≠ "Host" → k ≠ "X-Forwarded-For" → k ≠ "X-My-X-Forwarded-For" →
      hget r.headers k = hget (headers?.getD []) k) := by
  obtain ⟨-, hh⟩ := send_ok_shape endpoints pick randIp method url headers? r h
  rw [hh]
  exact ⟨hget_transformHeaders_host _ _ _,
    hget_transformHeaders_xff _ _ _,
    ⟨_, hget_transformHeaders_xmy _ _ _⟩,
    fun k h1 h2 h3 => hget_transformHeaders_frame _ _ _ k h1 h2 h3⟩

/-- Witness for C10: an unrelated caller key (`"Accept"`) is untouched and
the three managed keys behave as stated. -/
theorem claim_c10_header_mutation_witness :
    hget
        (transformHeaders "ep.example" (stringFromIpInt 3)
          [("Accept", "text/html"), ("X-Forwarded-For", "1.2.3.4")]) "Host"
      = some "ep.example" ∧
    hget
        (transformHeaders "ep.example" (stringFromIpInt 3)
          [("Accept", "text/html"), ("X-Forwarded-For", "1.2.3.4")])
        "X-Forwarded-For"
      = none ∧
    (∃ v,
      hget
          (transformHeaders "ep.example" (stringFromIpInt 3)
            [("Accept", "text/html"), ("X-Forwarded-For", "1.2.3.4")])
          "X-My-X-Forwarded-For"
        = some v) ∧
    hget
        (transformHeaders "ep.example" (stringFromIpInt 3)
          [("Accept", "text/html"), ("X-Forwarded-For", "1.2.3.4")]) "Accept"
      = hget [("Accept", "text/html"), ("X-Forwarded-For", "1.2.3.4")]
          "Accept" := by
  have h := claim_c10_header_mutation ["ep.example"] 0 3 "GET" "http://x/y"
    (some [("Accept", "text/html"), ("X-Forwarded-For", "1.2.3.4")])
    ⟨"GET", "https://ep.example/ProxyStage/y",
      transformHeaders "ep.example" (stringFromIpInt 3)
        [("Accept", "text/html"), ("X-Forwarded-For", "1.2.3.4")]⟩
    rfl
  exact ⟨h.1, h.2.1, h.2.2.1,
    h.2.2.2 "Accept" (by decide) (by decide) (by decide)⟩

end AsyncIpRotator
